import Mathlib

/-!
Shallow embedding of the data-alchemy price-resolution service.

Sources embedded here:
* `src/unnamed/part_000`  — `registerRoutes`, POST /api/price handler (tiered resolution)
* `src/unnamed/part_001`  — `InterpolationService` (`interpolatePrice`, `canInterpolate`)
* `src/unnamed/part_002`  — `RedisService` (error-swallowing cache get/set)
* `src/unnamed/part_003`  — `QueueService` (`addBulkFetchJob`, `processJob`)
* `src/unnamed/part_004`  — `MemStorage` (map-backed persistence)
* `src/.Trash/src 00-32-43-830/services/alchemy.ts` — `AlchemyService.getTokenPrice` (p-retry)

Modelling conventions: JS numbers used as prices and ratios are modelled as `ℚ`
(the arithmetic performed by the code at the concrete inputs of interest is exact
in binary floating point, except where IEEE special values arise, which are modelled
explicitly and noted at the definition); unix timestamps are `ℤ`; TS string-typed
decimal fields together with their `parseFloat`/`toString` round trips are modelled
as the rational value itself.  A JS `Map` is an insertion-ordered association list,
with `Map.set` replacing the binding in place.
-/

/-- Status literal `'pending'`. -/
def pendingStr : String := "pending"

/-- Status literal `'processing'`. -/
def processingStr : String := "processing"

/-- Status literal `'completed'`. -/
def completedStr : String := "completed"

/-- Audit-source literal `'cache'` (part_000 line 29). -/
def cacheStr : String := "cache"

/-- Audit-source literal `'storage'` (part_000 line 56). -/
def storageStr : String := "storage"

/-- Audit-source literal `'alchemy'` (part_000 lines 67 and 88): the tag the code
actually writes for the provider tier. -/
def alchemyStr : String := "alchemy"

/-- Audit-source literal `'interpolated'` (part_000 line 112). -/
def interpolatedStr : String := "interpolated"

/-- The spec's name for the provider tier tag (`source ∈ {cache, storage, provider,
interpolated}` in spec.md §3).  The code never produces this string; it is declared
only so that the spec's claimed tag set can be stated and compared with the code's. -/
def providerStr : String := "provider"

/-- JS `Map` lookup (`Map.get`): first binding with the given key. -/
def mapGet {α β : Type} [DecidableEq α] : List (α × β) → α → Option β
  | [], _ => none
  | (k', v') :: rest, k => if k' = k then some v' else mapGet rest k

/-- JS `Map.set`: replace the existing binding in place, else append. -/
def mapSet {α β : Type} [DecidableEq α] : List (α × β) → α → β → List (α × β)
  | [], k, v => [(k, v)]
  | (k', v') :: rest, k, v =>
      if k' = k then (k, v) :: rest else (k', v') :: mapSet rest k v

/-- A persisted historical price row (`HistoricalPrice` in the shared schema; the
`price`, `marketCap`, `volume` columns are decimal strings in TS, modelled as `ℚ`). -/
structure HistoricalPrice where
  id : ℕ
  tokenAddress : String
  network : String
  timestamp : ℤ
  price : ℚ
  marketCap : Option ℚ
  volume : Option ℚ
deriving DecidableEq

/-- Insert shape for `createHistoricalPrice`. -/
structure InsertHistoricalPrice where
  tokenAddress : String
  network : String
  timestamp : ℤ
  price : ℚ
  marketCap : Option ℚ
  volume : Option ℚ
deriving DecidableEq

/-- An audit row (`PriceQuery`).  `source` is the literal tag string the handler
passes to `createPriceQuery`. -/
structure PriceQuery where
  id : ℕ
  tokenAddress : String
  network : String
  timestamp : ℤ
  price : Option ℚ
  source : String
deriving DecidableEq

/-- Insert shape for `createPriceQuery`. -/
structure InsertPriceQuery where
  tokenAddress : String
  network : String
  timestamp : ℤ
  price : Option ℚ
  source : String
deriving DecidableEq

/-- A bulk-fetch job row.  `completedAt` records only whether the stamp was set. -/
structure BulkFetchJob where
  id : ℕ
  tokenAddress : String
  network : String
  status : String
  progress : Option ℤ
  totalDays : Option ℤ
  completedAt : Bool
deriving DecidableEq

/-- Insert shape for `createBulkFetchJob`. -/
structure InsertBulkFetchJob where
  tokenAddress : String
  network : String
  status : String
  progress : Option ℤ
  totalDays : Option ℤ
deriving DecidableEq

/-- The `MemStorage` state (part_004): three JS `Map`s and the id counters.
`priceQueries` is keyed by the ever-increasing id, so it is a plain list in
insertion order.  (The `users` table is unused by the embedded operations.) -/
structure MemStorage where
  priceQueries : List PriceQuery
  historicalPrices : List (String × HistoricalPrice)
  bulkFetchJobs : List (ℕ × BulkFetchJob)
  currentQueryId : ℕ
  currentPriceId : ℕ
  currentJobId : ℕ
deriving DecidableEq

/-- The empty `MemStorage` as built by its constructor. -/
def memEmpty : MemStorage :=
  { priceQueries := [], historicalPrices := [], bulkFetchJobs := []
    currentQueryId := 1, currentPriceId := 1, currentJobId := 1 }

/-- The historical-price map key `` `${tokenAddress}-${network}-${timestamp}` ``. -/
def hpKey (tokenAddress network : String) (timestamp : ℤ) : String :=
  tokenAddress ++ "-" ++ network ++ "-" ++ toString timestamp

/-- `MemStorage.createPriceQuery` (part_004): assign the next query id and store the
row.  (`query.price || null` on the TS string field is the identity except on the
empty string, which no caller produces.) -/
def createPriceQuery (st : MemStorage) (query : InsertPriceQuery) :
    PriceQuery × MemStorage :=
  let id := st.currentQueryId
  let priceQuery : PriceQuery :=
    { id := id, tokenAddress := query.tokenAddress, network := query.network
      timestamp := query.timestamp, price := query.price, source := query.source }
  (priceQuery,
   { st with currentQueryId := id + 1
             priceQueries := st.priceQueries ++ [priceQuery] })

/-- `MemStorage.createHistoricalPrice` (part_004 lines 97-109 of its file): assign the
next id and `Map.set` the row under its identity key — an unconditional `set`, with
no existence check.  (`price.marketCap || null` on the TS string field is the
identity except on the empty string, which no caller produces.) -/
def createHistoricalPrice (st : MemStorage) (price : InsertHistoricalPrice) :
    HistoricalPrice × MemStorage :=
  let id := st.currentPriceId
  let historicalPrice : HistoricalPrice :=
    { id := id, tokenAddress := price.tokenAddress, network := price.network
      timestamp := price.timestamp, price := price.price
      marketCap := price.marketCap, volume := price.volume }
  let key := hpKey price.tokenAddress price.network price.timestamp
  (historicalPrice,
   { st with currentPriceId := id + 1
             historicalPrices := mapSet st.historicalPrices key historicalPrice })

/-- `MemStorage.getHistoricalPrice`: exact-match lookup by identity key. -/
def getHistoricalPrice (st : MemStorage) (tokenAddress network : String)
    (timestamp : ℤ) : Option HistoricalPrice :=
  mapGet st.historicalPrices (hpKey tokenAddress network timestamp)

/-- `prices.filter(p => p.timestamp < ts).sort((a,b) => b.timestamp - a.timestamp)[0]`:
the first element of maximal timestamp among those strictly before `ts` (the JS sort
is stable, so ties keep the earlier element; the fold below replaces only on a
strictly larger timestamp, matching that). -/
def pickBefore (ts : ℤ) (prices : List HistoricalPrice) : Option HistoricalPrice :=
  prices.foldl
    (fun acc p =>
      if p.timestamp < ts then
        match acc with
        | none => some p
        | some q => if q.timestamp < p.timestamp then some p else some q
      else acc)
    none

/-- `prices.filter(p => p.timestamp > ts).sort((a,b) => a.timestamp - b.timestamp)[0]`:
the first element of minimal timestamp among those strictly after `ts`. -/
def pickAfter (ts : ℤ) (prices : List HistoricalPrice) : Option HistoricalPrice :=
  prices.foldl
    (fun acc p =>
      if ts < p.timestamp then
        match acc with
        | none => some p
        | some q => if p.timestamp < q.timestamp then some p else some q
      else acc)
    none

/-- `MemStorage.getNearestHistoricalPrices`: nearest persisted rows strictly before
and strictly after the target timestamp for the same (tokenAddress, network). -/
def getNearestHistoricalPrices (st : MemStorage) (tokenAddress network : String)
    (timestamp : ℤ) : Option HistoricalPrice × Option HistoricalPrice :=
  let prices := (st.historicalPrices.map Prod.snd).filter
    (fun p => p.tokenAddress == tokenAddress && p.network == network)
  (pickBefore timestamp prices, pickAfter timestamp prices)

/-!
## Interpolation service (part_001)
-/

/-- Result of `InterpolationService.interpolatePrice`; the nested `details` object. -/
structure InterpolationDetails where
  beforePrice : ℚ
  afterPrice : ℚ
  beforeTimestamp : ℤ
  afterTimestamp : ℤ
  ratio : ℚ
deriving DecidableEq

/-- Result of `InterpolationService.interpolatePrice`. -/
structure InterpolationResult where
  price : ℚ
  source : String
  details : InterpolationDetails
deriving DecidableEq

/-- `InterpolationService.interpolatePrice` (part_001 lines 20-47): pure linear
interpolation.  At the timestamps and prices quoted by the spec the JS double
arithmetic is exact, so the rational value is the computed value. -/
def interpolatePrice (targetTimestamp : ℤ) (beforePrice afterPrice : HistoricalPrice) :
    InterpolationResult :=
  let beforeTs := beforePrice.timestamp
  let afterTs := afterPrice.timestamp
  let beforePriceValue := beforePrice.price
  let afterPriceValue := afterPrice.price
  let ratio : ℚ :=
    ((targetTimestamp : ℚ) - (beforeTs : ℚ)) / ((afterTs : ℚ) - (beforeTs : ℚ))
  let interpolatedPrice := beforePriceValue + (afterPriceValue - beforePriceValue) * ratio
  { price := interpolatedPrice
    source := interpolatedStr
    details :=
      { beforePrice := beforePriceValue, afterPrice := afterPriceValue
        beforeTimestamp := beforeTs, afterTimestamp := afterTs, ratio := ratio } }

/-- The JS expression `Math.abs(after - before) / before > 0.5` (part_001 lines
77-78).  Finite/finite division is exact and modelled in `ℚ`.  When `before = 0`
IEEE semantics apply and are modelled case by case: `x / 0` for `x > 0` is `+∞`,
which compares greater than `0.5`; `0 / 0` is `NaN`, and `NaN > 0.5` is `false`.
The numerator `Math.abs(...)` is never negative, so `-∞` cannot arise. -/
def priceChangeExceedsHalf (beforePriceValue afterPriceValue : ℚ) : Bool :=
  let priceChange := |afterPriceValue - beforePriceValue|
  if beforePriceValue = 0 then
    if priceChange = 0 then false else true
  else decide ((1 : ℚ) / 2 < priceChange / beforePriceValue)

/-- `InterpolationService.canInterpolate` (part_001 lines 54-83): range check, 7-day
gap check, 50% price-swing check, in source order.  There is no explicit
`before.price == 0` guard in the source; the zero case rides on the IEEE semantics
captured by `priceChangeExceedsHalf`. -/
def canInterpolate (beforePrice afterPrice : HistoricalPrice)
    (targetTimestamp : ℤ) : Bool :=
  let beforeTs := beforePrice.timestamp
  let afterTs := afterPrice.timestamp
  if targetTimestamp ≤ beforeTs ∨ afterTs ≤ targetTimestamp then false
  else if (7 * 24 * 60 * 60 : ℤ) < afterTs - beforeTs then false
  else if priceChangeExceedsHalf beforePrice.price afterPrice.price then false
  else true

/-!
## Provider retry model (services/alchemy.ts)

`AlchemyService.getTokenPrice` wraps one `fetch` attempt in `pRetry(fn, { retries: 3,
factor: 2, minTimeout: 1000, maxTimeout: 5000 })` and catches the final error,
returning `null`.  `p-retry` runs the function once and then retries it up to
`retries` more times; every thrown error is retried (nothing ever throws an
`AbortError`), and the wait before the (k+1)-th retry is
`min(minTimeout * factor^k, maxTimeout)`.  The network is modelled as a function
from the attempt index to the HTTP response of that attempt.
-/

/-- A provider price payload (`TokenPrice` in alchemy.ts). -/
structure TokenPrice where
  price : ℚ
  timestamp : ℤ
  marketCap : Option ℚ
  volume : Option ℚ
deriving DecidableEq

/-- One HTTP response as observed by the fetch attempt. -/
structure FetchResponse where
  status : ℕ
  payload : TokenPrice
deriving DecidableEq

/-- The attempt body throws when `response.status === 429` (`'Rate limited'`) or when
`!response.ok` (`response.ok` is status 200-299); otherwise it returns the payload. -/
def attemptFails (r : FetchResponse) : Bool :=
  decide (r.status = 429) || !(decide (200 ≤ r.status) && decide (r.status < 300))

/-- The wait `min(minTimeout * factor^k, maxTimeout)` before the (k+1)-th retry,
with the configured `minTimeout = 1000`, `factor = 2`, `maxTimeout = 5000`. -/
def retryTimeout (k : ℕ) : ℕ := min (1000 * 2 ^ k) 5000

/-- Observable outcome of one `getTokenPrice` call: the value returned to the
caller (`none` models the `null` of the catch block), the number of attempts
actually made, and the backoff waits slept between consecutive attempts. -/
structure RetryOutcome where
  result : Option TokenPrice
  attempts : ℕ
  waits : List ℕ
deriving DecidableEq

/-- `p-retry` execution: attempt `i`; on failure with `retriesLeft = 0` give up
(the caller's catch turns the error into `none`), otherwise wait `retryTimeout i`
and retry. -/
def runRetry (responses : ℕ → FetchResponse) : ℕ → ℕ → RetryOutcome
  | i, 0 =>
      if attemptFails (responses i) then { result := none, attempts := 1, waits := [] }
      else { result := some (responses i).payload, attempts := 1, waits := [] }
  | i, retriesLeft + 1 =>
      if attemptFails (responses i) then
        let rest := runRetry responses (i + 1) retriesLeft
        { result := rest.result, attempts := rest.attempts + 1
          waits := retryTimeout i :: rest.waits }
      else { result := some (responses i).payload, attempts := 1, waits := [] }

/-- `AlchemyService.getTokenPrice` (alchemy.ts lines 29-73): `pRetry` with
`retries: 3`, final error caught and turned into `null`. -/
def getTokenPrice (responses : ℕ → FetchResponse) : RetryOutcome :=
  runRetry responses 0 3

/-- The first successful payload among the next `n` attempts; `none` if they all
fail.  (Specification-side characterisation used to state what `getTokenPrice`
returns.) -/
def firstSuccessIn (responses : ℕ → FetchResponse) : ℕ → ℕ → Option TokenPrice
  | _, 0 => none
  | i, n + 1 =>
      if attemptFails (responses i) then firstSuccessIn responses (i + 1) n
      else some (responses i).payload

/-!
## Price resolution chain (part_000, POST /api/price, lines 17-131)

`RedisService.get`/`set` (part_002 lines 34-51) wrap every cache operation in
`try/catch`: a failing backend makes `get` return `null` and makes `set` a no-op,
and nothing propagates.  The possibility of backend failure is modelled by an
environment of outcome flags, one per class of backend call the handler makes; the
`MemStorage` calls sit inside the handler's single `try/catch`, so when one of them
throws the handler answers 500 with whatever state mutations already happened.
-/

/-- A cached price entry as the handler stores and reads it (the JSON value under
`` `price:${token}:${network}:${timestamp}` ``; only the `price`, `marketCap`,
`volume` fields are ever read back). -/
structure CachedPrice where
  price : ℚ
  marketCap : Option ℚ
  volume : Option ℚ
deriving DecidableEq

/-- The Redis key `` `price:${tokenAddress}:${network}:${timestamp}` ``. -/
def cacheKey (tokenAddress network : String) (timestamp : ℤ) : String :=
  "price:" ++ tokenAddress ++ ":" ++ network ++ ":" ++ toString timestamp

/-- Joint state of the resolution chain's backends: the Redis cache contents and
the `MemStorage` instance. -/
structure SysState where
  cache : List (String × CachedPrice)
  storage : MemStorage
deriving DecidableEq

/-- Outcomes of the fallible backend calls one resolution makes:
`cacheErr` — the Redis backend is failing (swallowed inside `RedisService`);
`providerPrice` — what `alchemyService.getTokenPrice` resolves to (`none` covers
misses and internally-exhausted retries alike);
`storageReadErr` — `storage.getHistoricalPrice` / `getNearestHistoricalPrices` throw;
`storageWriteErr` — `storage.createHistoricalPrice` throws;
`auditErr` — `storage.createPriceQuery` throws. -/
structure ResolveEnv where
  cacheErr : Bool
  providerPrice : Option TokenPrice
  storageReadErr : Bool
  storageWriteErr : Bool
  auditErr : Bool
deriving DecidableEq

/-- `RedisService.getCachedPrice`: `get` returns `null` on backend error. -/
def redisGet (env : ResolveEnv) (cache : List (String × CachedPrice)) (key : String) :
    Option CachedPrice :=
  if env.cacheErr then none else mapGet cache key

/-- `RedisService.setCachedPrice`: `set` is a swallowed no-op on backend error. -/
def redisSet (env : ResolveEnv) (cache : List (String × CachedPrice)) (key : String)
    (value : CachedPrice) : List (String × CachedPrice) :=
  if env.cacheErr then cache else mapSet cache key value

/-- What the handler sends back: `ok` is the 200 JSON body (price, source tag,
optional marketCap/volume), `notFound` the 404 branch, `serverError` the catch-all
500 branch. -/
inductive ResolveResult : Type
  | ok (price : ℚ) (source : String) (marketCap volume : Option ℚ)
  | notFound
  | serverError
deriving DecidableEq

/-- The POST /api/price handler (part_000 lines 17-131), tier by tier in source
order.  Tier 1: cache hit → audit(source='cache'), return, no other write.
Tier 2: storage exact match → cache write-back, audit(source='storage').
Tier 3: provider result → cache write-back, persist PricePoint, audit(source='alchemy').
Tier 4: bracketing rows + `canInterpolate` → cache write-back, audit(source='interpolated')
(no PricePoint write).  Otherwise 404 with no writes.  A throwing `MemStorage` call
is answered by the catch-all 500 with the mutations made so far kept. -/
def resolvePrice (env : ResolveEnv) (st : SysState) (token network : String)
    (timestamp : ℤ) : ResolveResult × SysState :=
  match redisGet env st.cache (cacheKey token network timestamp) with
  | some cached =>
      if env.auditErr then (ResolveResult.serverError, st)
      else
        let st1 := { st with storage := (createPriceQuery st.storage
          { tokenAddress := token, network := network, timestamp := timestamp
            price := some cached.price, source := cacheStr }).2 }
        (ResolveResult.ok cached.price cacheStr cached.marketCap cached.volume, st1)
  | none =>
    if env.storageReadErr then (ResolveResult.serverError, st)
    else
      match getHistoricalPrice st.storage token network timestamp with
      | some existingPrice =>
          let result : CachedPrice :=
            { price := existingPrice.price, marketCap := existingPrice.marketCap
              volume := existingPrice.volume }
          let st1 := { st with
            cache := redisSet env st.cache (cacheKey token network timestamp) result }
          if env.auditErr then (ResolveResult.serverError, st1)
          else
            let st2 := { st1 with storage := (createPriceQuery st1.storage
              { tokenAddress := token, network := network, timestamp := timestamp
                price := some existingPrice.price, source := storageStr }).2 }
            (ResolveResult.ok existingPrice.price storageStr
              existingPrice.marketCap existingPrice.volume, st2)
      | none =>
        match env.providerPrice with
        | some alchemyPrice =>
            let result : CachedPrice :=
              { price := alchemyPrice.price, marketCap := alchemyPrice.marketCap
                volume := alchemyPrice.volume }
            let st1 := { st with
              cache := redisSet env st.cache (cacheKey token network timestamp) result }
            if env.storageWriteErr then (ResolveResult.serverError, st1)
            else
              let st2 := { st1 with storage := (createHistoricalPrice st1.storage
                { tokenAddress := token, network := network, timestamp := timestamp
                  price := alchemyPrice.price, marketCap := alchemyPrice.marketCap
                  volume := alchemyPrice.volume }).2 }
              if env.auditErr then (ResolveResult.serverError, st2)
              else
                let st3 := { st2 with storage := (createPriceQuery st2.storage
                  { tokenAddress := token, network := network, timestamp := timestamp
                    price := some alchemyPrice.price, source := alchemyStr }).2 }
                (ResolveResult.ok alchemyPrice.price alchemyStr
                  alchemyPrice.marketCap alchemyPrice.volume, st3)
        | none =>
          match getNearestHistoricalPrices st.storage token network timestamp with
          | (some bef, some aft) =>
              if canInterpolate bef aft timestamp then
                let interpolated := interpolatePrice timestamp bef aft
                let result : CachedPrice :=
                  { price := interpolated.price, marketCap := none, volume := none }
                let st1 := { st with
                  cache := redisSet env st.cache (cacheKey token network timestamp) result }
                if env.auditErr then (ResolveResult.serverError, st1)
                else
                  let st2 := { st1 with storage := (createPriceQuery st1.storage
                    { tokenAddress := token, network := network, timestamp := timestamp
                      price := some interpolated.price, source := interpolatedStr }).2 }
                  (ResolveResult.ok interpolated.price interpolatedStr none none, st2)
              else (ResolveResult.notFound, st)
          | (some _, none) => (ResolveResult.notFound, st)
          | (none, _) => (ResolveResult.notFound, st)

/-!
## Backfill job manager (part_003, part_004)
-/

/-- The JS coercion `x || null` on a `number | null` field: `0` and `null` are both
falsy and become `null` (part_004, `createBulkFetchJob`). -/
def coalesceNum : Option ℤ → Option ℤ
  | some v => if v = 0 then none else some v
  | none => none

/-- `MemStorage.createBulkFetchJob` (part_004 lines 131-143 of its file): assign the
next job id, coerce falsy `progress` and `totalDays` to `null`, store the row. -/
def createBulkFetchJob (st : MemStorage) (job : InsertBulkFetchJob) :
    BulkFetchJob × MemStorage :=
  let id := st.currentJobId
  let bulkFetchJob : BulkFetchJob :=
    { id := id, tokenAddress := job.tokenAddress, network := job.network
      status := job.status, progress := coalesceNum job.progress
      totalDays := coalesceNum job.totalDays, completedAt := false }
  (bulkFetchJob,
   { st with currentJobId := id + 1
             bulkFetchJobs := mapSet st.bulkFetchJobs id bulkFetchJob })

/-- `MemStorage.getActiveBulkFetchJobs`: jobs with status pending or processing. -/
def getActiveBulkFetchJobs (st : MemStorage) : List BulkFetchJob :=
  (st.bulkFetchJobs.map Prod.snd).filter
    (fun job => job.status == pendingStr || job.status == processingStr)

/-- `QueueService.addBulkFetchJob` (part_003 lines 49-73): create the storage row
with `status: 'pending', progress: 0, totalDays: null`, then best-effort enqueue
(the enqueue touches only the external queue, never `MemStorage`, and its failure
is swallowed), and return the job id. -/
def addBulkFetchJob (st : MemStorage) (tokenAddress network : String) :
    ℕ × MemStorage :=
  let r := createBulkFetchJob st
    { tokenAddress := tokenAddress, network := network, status := pendingStr
      progress := some 0, totalDays := none }
  (r.1.id, r.2)

/-- One `Partial<BulkFetchJob>` argument of `updateBulkFetchJob`: `some` marks a
field present in the update object. -/
structure JobUpdate where
  status : Option String := none
  progress : Option ℤ := none
  totalDays : Option ℤ := none
deriving DecidableEq

/-- `MemStorage.updateBulkFetchJob` (part_004 lines 150-158 of its file):
`Object.assign(job, updates)`, stamping `completedAt` when the update sets status
`'completed'`. -/
def applyUpdate (job : BulkFetchJob) (updates : JobUpdate) : BulkFetchJob :=
  let job1 : BulkFetchJob :=
    { job with
      status := updates.status.getD job.status
      progress := match updates.progress with
        | some p => some p
        | none => job.progress
      totalDays := match updates.totalDays with
        | some d => some d
        | none => job.totalDays }
  if updates.status = some completedStr then { job1 with completedAt := true }
  else job1

/-- A token address used in concrete scenarios. -/
def tEx : String := "0xtoken"

/-- A network name used in concrete scenarios. -/
def nEx : String := "ethereum"

/-- A provider payload used in concrete scenarios. -/
def tpEx : TokenPrice := { price := 1, timestamp := 0, marketCap := none, volume := none }

/-- A transient HTTP 500 response. -/
def fetch500 : FetchResponse := { status := 500, payload := tpEx }

/-- A response schedule whose first attempt is HTTP 404 and whose later attempts
succeed. -/
def resp404ThenOk : ℕ → FetchResponse :=
  fun i => if i = 0 then { status := 404, payload := tpEx }
           else { status := 200, payload := tpEx }

/-- A bracketing row at t=1000 with price 0. -/
def beforeZero : HistoricalPrice :=
  { id := 1, tokenAddress := tEx, network := nEx, timestamp := 1000
    price := 0, marketCap := none, volume := none }

/-- A bracketing row at t=2000 with price 0. -/
def afterZero : HistoricalPrice :=
  { id := 2, tokenAddress := tEx, network := nEx, timestamp := 2000
    price := 0, marketCap := none, volume := none }

/-- The spec's worked example: before = (t=1000, price=10). -/
def beforeEx : HistoricalPrice :=
  { id := 1, tokenAddress := tEx, network := nEx, timestamp := 1000
    price := 10, marketCap := none, volume := none }

/-- The spec's worked example: after = (t=2000, price=20). -/
def afterEx : HistoricalPrice :=
  { id := 2, tokenAddress := tEx, network := nEx, timestamp := 2000
    price := 20, marketCap := none, volume := none }

/-- Empty backends. -/
def stEmpty : SysState := { cache := [], storage := memEmpty }

/-- A cached entry used for the cache-hit scenario. -/
def cpEx : CachedPrice := { price := 3, marketCap := none, volume := none }

/-- Backends with one cached entry for (tEx, nEx, 5). -/
def stCache : SysState :=
  { cache := [(cacheKey tEx nEx 5, cpEx)], storage := memEmpty }

/-- Healthy backends, provider resolves `tpEx`. -/
def envProv : ResolveEnv :=
  { cacheErr := false, providerPrice := some tpEx
    storageReadErr := false, storageWriteErr := false, auditErr := false }

/-- Healthy backends except `createHistoricalPrice` throws; provider resolves. -/
def envWriteErr : ResolveEnv :=
  { cacheErr := false, providerPrice := some tpEx
    storageReadErr := false, storageWriteErr := true, auditErr := false }

/-- The Redis backend is failing; everything else healthy, provider misses. -/
def envCacheErr : ResolveEnv :=
  { cacheErr := true, providerPrice := none
    storageReadErr := false, storageWriteErr := false, auditErr := false }

/-- Fully healthy backends with a provider miss. -/
def envOk : ResolveEnv :=
  { cacheErr := false, providerPrice := none
    storageReadErr := false, storageWriteErr := false, auditErr := false }

/-!
## Helper lemmas
-/

/-- Reading back the key just written by `Map.set` yields the written value. -/
theorem mapGet_mapSet_self {α β : Type} [DecidableEq α]
    (m : List (α × β)) (k : α) (v : β) : mapGet (mapSet m k v) k = some v := by
  induction m with
  | nil => simp [mapSet, mapGet]
  | cons hd tl ih =>
      obtain ⟨k', v'⟩ := hd
      by_cases h : k' = k
      · simp [mapSet, mapGet, h]
      · simp [mapSet, mapGet, h, ih]

/-- The value just written by `Map.set` is among the map's values. -/
theorem mem_map_snd_mapSet {α β : Type} [DecidableEq α]
    (m : List (α × β)) (k : α) (v : β) : v ∈ (mapSet m k v).map Prod.snd := by
  induction m with
  | nil => simp [mapSet]
  | cons hd tl ih =>
      obtain ⟨k', v'⟩ := hd
      by_cases h : k' = k
      · simp [mapSet, h]
      · simp [mapSet, h]
        right
        simpa using ih

/-- Updating with an absent `status` field leaves the status unchanged; a present
one replaces it. -/
theorem applyUpdate_status (job : BulkFetchJob) (u : JobUpdate) :
    (applyUpdate job u).status = u.status.getD job.status := by
  unfold applyUpdate
  by_cases hs : u.status = some completedStr <;> simp [hs]

/-- Folding updates that never carry a `status` field preserves the status. -/
theorem foldl_status_of_none (us : List JobUpdate) :
    ∀ job : BulkFetchJob, (∀ u ∈ us, u.status = none) →
    (List.foldl applyUpdate job us).status = job.status := by
  induction us with
  | nil => intro job _; rfl
  | cons u us ih =>
      intro job h
      have hu : u.status = none := h u (List.mem_cons_self u us)
      have hst : (applyUpdate job u).status = job.status := by
        rw [applyUpdate_status, hu]; rfl
      rw [List.foldl_cons, ih (applyUpdate job u)
        (fun w hw => h w (List.mem_cons_of_mem u hw)), hst]

/-- C5: the claim says `canInterpolate` returns false whenever `before.price == 0`,
for every value of `after.price`.  The code has no division-by-zero guard: with
`before.price = 0` and `after.price = 0` (timestamps 1000 < 1500 < 2000, gap within
7 days) the JS expression `Math.abs(0 - 0) / 0` is `NaN`, `NaN > 0.5` is false, and
`canInterpolate` returns true — evaluating the embedded code at that input. -/
theorem c5_zero_before_zero_after_accepted :
    canInterpolate beforeZero afterZero 1500 = true := by
  norm_num [canInterpolate, priceChangeExceedsHalf, beforeZero, afterZero]

/-- C7: `interpolatePrice` computes exactly
`ratio = (target - before.timestamp) / (after.timestamp - before.timestamp)` and
`price = before.price + (after.price - before.price) * ratio` under the strict
bracketing precondition, echoing beforePrice, afterPrice, beforeTimestamp,
afterTimestamp in the details; and at before = (t=1000, price=10),
after = (t=2000, price=20), target = 1500 it returns price 15 and ratio 1/2. -/
theorem c7_interpolate_linear :
    (∀ (beforePrice afterPrice : HistoricalPrice) (target : ℤ),
        beforePrice.timestamp < target → target < afterPrice.timestamp →
        interpolatePrice target beforePrice afterPrice =
          { price := beforePrice.price + (afterPrice.price - beforePrice.price) *
              (((target : ℚ) - (beforePrice.timestamp : ℚ)) /
               ((afterPrice.timestamp : ℚ) - (beforePrice.timestamp : ℚ)))
            source := interpolatedStr
            details :=
              { beforePrice := beforePrice.price, afterPrice := afterPrice.price
                beforeTimestamp := beforePrice.timestamp
                afterTimestamp := afterPrice.timestamp
                ratio := ((target : ℚ) - (beforePrice.timestamp : ℚ)) /
                  ((afterPrice.timestamp : ℚ) - (beforePrice.timestamp : ℚ)) } })
    ∧ interpolatePrice 1500 beforeEx afterEx =
        { price := 15, source := interpolatedStr
          details :=
            { beforePrice := 10, afterPrice := 20, beforeTimestamp := 1000
              afterTimestamp := 2000, ratio := 1 / 2 } } := by
  constructor
  · intro beforePrice afterPrice target _ _
    rfl
  · norm_num [interpolatePrice, beforeEx, afterEx]

/-- C7 witness: the general part of `c7_interpolate_linear` applied at the spec's
worked example, with the strict bracketing hypotheses discharged by `decide`. -/
theorem c7_witness :
    interpolatePrice 1500 beforeEx afterEx =
      { price := beforeEx.price + (afterEx.price - beforeEx.price) *
          (((1500 : ℚ) - (beforeEx.timestamp : ℚ)) /
           ((afterEx.timestamp : ℚ) - (beforeEx.timestamp : ℚ)))
        source := interpolatedStr
        details :=
          { beforePrice := beforeEx.price, afterPrice := afterEx.price
            beforeTimestamp := beforeEx.timestamp
            afterTimestamp := afterEx.timestamp
            ratio := ((1500 : ℚ) - (beforeEx.timestamp : ℚ)) /
              ((afterEx.timestamp : ℚ) - (beforeEx.timestamp : ℚ)) } } :=
  c7_interpolate_linear.1 beforeEx afterEx 1500 (by decide) (by decide)

/-- C10: a job created by `addBulkFetchJob` (which passes `progress: 0`) is stored
with `progress = null` — the `job.progress || null` coercion in
`createBulkFetchJob` turns the falsy 0 into null — and the freshly scheduled
pending job is visible via `getActiveBulkFetchJobs` carrying that null progress. -/
theorem c10_scheduled_progress_null (st : MemStorage) (token network : String) :
    mapGet ((addBulkFetchJob st token network).2).bulkFetchJobs
        ((addBulkFetchJob st token network).1)
      = some { id := st.currentJobId, tokenAddress := token, network := network
               status := pendingStr, progress := none, totalDays := none
               completedAt := false }
    ∧ ({ id := st.currentJobId, tokenAddress := token, network := network
         status := pendingStr, progress := none, totalDays := none
         completedAt := false } : BulkFetchJob)
        ∈ getActiveBulkFetchJobs ((addBulkFetchJob st token network).2) := by
  constructor
  · simp [addBulkFetchJob, createBulkFetchJob, coalesceNum, mapGet_mapSet_self]
  · simp only [addBulkFetchJob, createBulkFetchJob, coalesceNum, getActiveBulkFetchJobs]
    rw [List.mem_filter]
    constructor
    · exact mem_map_snd_mapSet _ _ _
    · simp

/-- C2 counterexample: the claim says every provider call makes at most 3 attempts
and that NotFound fails fast without retry.  On the code (`pRetry` with
`retries: 3`, meaning 3 retries after the initial attempt, and no `AbortError`
anywhere): a call whose responses are all HTTP 500 makes 4 attempts, and a call
whose first response is HTTP 404 is retried and returns the second attempt's
payload. -/
theorem c2_counterexample :
    (getTokenPrice (fun _ => fetch500)).attempts = 4
    ∧ ¬ (getTokenPrice (fun _ => fetch500)).attempts ≤ 3
    ∧ (getTokenPrice resp404ThenOk).result = some tpEx
    ∧ (getTokenPrice resp404ThenOk).attempts = 2 := by
  refine ⟨?_, ?_, ?_, ?_⟩ <;>
    simp [getTokenPrice, runRetry, attemptFails, fetch500, resp404ThenOk]

/-- Every `runRetry` run makes at least one attempt. -/
theorem runRetry_attempts_pos (responses : ℕ → FetchResponse) :
    ∀ (r i : ℕ), 1 ≤ (runRetry responses i r).attempts := by
  intro r
  induction r with
  | zero => intro i; by_cases h : attemptFails (responses i) <;> simp [runRetry, h]
  | succ r ih =>
      intro i
      by_cases h : attemptFails (responses i) <;> simp [runRetry, h]

/-- A `runRetry` run with `r` retries left makes at most `r + 1` attempts. -/
theorem runRetry_attempts_le (responses : ℕ → FetchResponse) :
    ∀ (r i : ℕ), (runRetry responses i r).attempts ≤ r + 1 := by
  intro r
  induction r with
  | zero => intro i; by_cases h : attemptFails (responses i) <;> simp [runRetry, h]
  | succ r ih =>
      intro i
      by_cases h : attemptFails (responses i)
      · simpa [runRetry, h] using ih (i + 1)
      · simp [runRetry, h]

/-- A `runRetry` run returns the first successful payload within its attempt
window, and `none` when every attempt in the window fails. -/
theorem runRetry_result_eq (responses : ℕ → FetchResponse) :
    ∀ (r i : ℕ), (runRetry responses i r).result = firstSuccessIn responses i (r + 1) := by
  intro r
  induction r with
  | zero =>
      intro i
      by_cases h : attemptFails (responses i) <;> simp [runRetry, firstSuccessIn, h]
  | succ r ih =>
      intro i
      by_cases h : attemptFails (responses i)
      · simp [runRetry, firstSuccessIn, h, ih (i + 1)]
      · simp [runRetry, firstSuccessIn, h]

/-- The waits slept by a `runRetry` run are exactly the backoff schedule for the
failed attempts that preceded a retry. -/
theorem runRetry_waits_eq (responses : ℕ → FetchResponse) :
    ∀ (r i : ℕ), (runRetry responses i r).waits
      = (List.range ((runRetry responses i r).attempts - 1)).map
          (fun k => retryTimeout (i + k)) := by
  intro r
  induction r with
  | zero => intro i; by_cases h : attemptFails (responses i) <;> simp [runRetry, h]
  | succ r ih =>
      intro i
      by_cases h : attemptFails (responses i)
      · have hpos := runRetry_attempts_pos responses r (i + 1)
        obtain ⟨m, hm⟩ := Nat.exists_eq_add_of_le hpos
        simp only [runRetry, h, if_pos]
        rw [ih (i + 1), hm]
        simp only [Nat.add_sub_cancel_left, Nat.add_sub_cancel]
        rw [show 1 + m = m + 1 from Nat.add_comm 1 m, List.range_succ_eq_map]
        simp only [List.map_cons, List.map_map, Nat.add_zero]
        congr 1
        apply List.map_congr_left
        intro k _
        simp only [Function.comp]
        congr 1
        omega
      · simp [runRetry, h]

/-- When every attempt in the window fails, there is no first success. -/
theorem firstSuccessIn_none (responses : ℕ → FetchResponse) :
    ∀ (n i : ℕ), (∀ k, k < n → attemptFails (responses (i + k)) = true) →
    firstSuccessIn responses i n = none := by
  intro n
  induction n with
  | zero => intro i _; rfl
  | succ n ih =>
      intro i h
      have h0 : attemptFails (responses i) = true := by
        have := h 0 (Nat.succ_pos n)
        simpa using this
      simp only [firstSuccessIn, h0, if_pos]
      exact ih (i + 1) (fun k hk => by
        have := h (k + 1) (Nat.succ_lt_succ hk)
        simpa [Nat.add_assoc, Nat.add_comm 1 k] using this)

/-- C2 (amended): every provider call makes at most 4 attempts (one initial plus
the configured 3 retries); it returns the payload of the first successful attempt
within that window; the waits between consecutive attempts follow the configured
exponential backoff min(1000·2^k, 5000) ms, each at most 5000 ms; and every failed
attempt — rate-limited, transient, and HTTP 404 NotFound alike — is retried
uniformly, a call all of whose 4 attempts fail yielding a miss (`none`), not an
exception. -/
theorem c2_retry_behaviour (responses : ℕ → FetchResponse) :
    (getTokenPrice responses).attempts ≤ 4
    ∧ (getTokenPrice responses).result = firstSuccessIn responses 0 4
    ∧ (getTokenPrice responses).waits
        = (List.range ((getTokenPrice responses).attempts - 1)).map retryTimeout
    ∧ (∀ w ∈ (getTokenPrice responses).waits, w ≤ 5000)
    ∧ ((∀ k, k < 4 → attemptFails (responses k) = true) →
        (getTokenPrice responses).result = none) := by
  refine ⟨?_, ?_, ?_, ?_, ?_⟩
  · exact runRetry_attempts_le responses 3 0
  · exact runRetry_result_eq responses 3 0
  · have := runRetry_waits_eq responses 3 0
    simpa [getTokenPrice] using this
  · intro w hw
    have heq := runRetry_waits_eq responses 3 0
    rw [getTokenPrice] at hw
    rw [heq] at hw
    obtain ⟨k, _, hk⟩ := List.mem_map.mp hw
    rw [← hk]
    exact Nat.min_le_right _ 5000
  · intro h
    rw [getTokenPrice, runRetry_result_eq responses 3 0]
    exact firstSuccessIn_none responses 4 0 (fun k hk => by simpa using h k hk)

/-- C2 witness: `c2_retry_behaviour` applied to the all-HTTP-500 response
schedule, discharging the all-attempts-fail hypothesis of its final conjunct. -/
theorem c2_witness : (getTokenPrice (fun _ => fetch500)).result = none :=
  (c2_retry_behaviour (fun _ => fetch500)).2.2.2.2
    (fun k _ => by simp [attemptFails, fetch500])


/-- C8: a resolution satisfied by the cache tier adds exactly one audit record and
changes nothing else: the response is the cached entry as-is, the cache is not
re-written, and no PricePoint is persisted. -/
theorem c8_cache_hit_frame (env : ResolveEnv) (st : SysState) (token network : String)
    (timestamp : ℤ) (cached : CachedPrice)
    (hc : env.cacheErr = false) (ha : env.auditErr = false)
    (hm : mapGet st.cache (cacheKey token network timestamp) = some cached) :
    (resolvePrice env st token network timestamp).1
      = ResolveResult.ok cached.price cacheStr cached.marketCap cached.volume
    ∧ ((resolvePrice env st token network timestamp).2).cache = st.cache
    ∧ ((resolvePrice env st token network timestamp).2).storage.historicalPrices
        = st.storage.historicalPrices
    ∧ ((resolvePrice env st token network timestamp).2).storage.priceQueries
        = st.storage.priceQueries
          ++ [{ id := st.storage.currentQueryId, tokenAddress := token
                network := network, timestamp := timestamp
                price := some cached.price, source := cacheStr }] := by
  have hg : redisGet env st.cache (cacheKey token network timestamp) = some cached := by
    simp [redisGet, hc, hm]
  refine ⟨?_, ?_, ?_, ?_⟩ <;> simp [resolvePrice, hg, ha, createPriceQuery]

/-- C8 witness: `c8_cache_hit_frame` at healthy backends holding one cached entry
for (tEx, nEx, 5), the cache-hit hypothesis discharged on the concrete map. -/
theorem c8_witness :
    (resolvePrice envOk stCache tEx nEx 5).1
      = ResolveResult.ok cpEx.price cacheStr cpEx.marketCap cpEx.volume
    ∧ ((resolvePrice envOk stCache tEx nEx 5).2).cache = stCache.cache
    ∧ ((resolvePrice envOk stCache tEx nEx 5).2).storage.historicalPrices
        = stCache.storage.historicalPrices
    ∧ ((resolvePrice envOk stCache tEx nEx 5).2).storage.priceQueries
        = stCache.storage.priceQueries
          ++ [{ id := stCache.storage.currentQueryId, tokenAddress := tEx
                network := nEx, timestamp := 5
                price := some cpEx.price, source := cacheStr }] :=
  c8_cache_hit_frame envOk stCache tEx nEx 5 cpEx rfl rfl (by simp [stCache, mapGet])

/-- C6 counterexample: the claim says a persistence write error on the provider
tier is logged but does not fail the response.  On the code, with healthy cache,
empty storage, a successful provider lookup, and `createHistoricalPrice` throwing,
the handler's catch-all answers 500 (`serverError`) instead of returning the
provider price. -/
theorem c6_counterexample :
    (resolvePrice envWriteErr stEmpty tEx nEx 5).1 = ResolveResult.serverError := by
  simp [resolvePrice, envWriteErr, stEmpty, memEmpty, redisGet, getHistoricalPrice,
    mapGet]

/-- C6 (amended): cache backend errors never fail the response (the Redis service
swallows them, degrading the cache tier to a miss) and a provider miss falls
through; but `MemStorage` errors do not degrade — each of the three kinds aborts
the resolution through the handler's catch-all instead of being logged and
continued: a persistence read error after a cache miss answers 500; a failing
audit write means no call ever returns a price (every price-returning tier
performs the audit write, so the call ends in 500, or in 404 when no tier was
satisfied); and a PricePoint write error on the provider tier answers 500. -/
theorem c6_error_degradation (env : ResolveEnv) (st : SysState)
    (token network : String) (timestamp : ℤ) :
    (env.storageReadErr = false → env.storageWriteErr = false → env.auditErr = false →
      (resolvePrice env st token network timestamp).1 ≠ ResolveResult.serverError)
    ∧ (env.storageReadErr = true →
        redisGet env st.cache (cacheKey token network timestamp) = none →
        (resolvePrice env st token network timestamp).1 = ResolveResult.serverError)
    ∧ (env.auditErr = true →
        (resolvePrice env st token network timestamp).1 = ResolveResult.serverError
        ∨ (resolvePrice env st token network timestamp).1 = ResolveResult.notFound)
    ∧ (∀ ap : TokenPrice, env.storageWriteErr = true →
        redisGet env st.cache (cacheKey token network timestamp) = none →
        getHistoricalPrice st.storage token network timestamp = none →
        env.providerPrice = some ap →
        (resolvePrice env st token network timestamp).1 = ResolveResult.serverError) := by
  refine ⟨?_, ?_, ?_, ?_⟩
  · intro h1 h2 h3
    unfold resolvePrice
    (repeat' split) <;> simp_all
  · intro hr hcache
    simp [resolvePrice, hcache, hr]
  · intro ha
    unfold resolvePrice
    (repeat' split) <;> simp_all
  · intro ap hw hcache hstore hprov
    by_cases hr : env.storageReadErr
    · simp [resolvePrice, hcache, hr]
    · simp [resolvePrice, hcache, hr, hstore, hprov, hw]

/-- C6 witness: the no-500 part of `c6_error_degradation` applied at a failing
Redis backend over empty storage with a provider miss, hypotheses discharged by
`rfl`: the cache error degrades to a miss instead of failing the response. -/
theorem c6_witness :
    (resolvePrice envCacheErr stEmpty tEx nEx 5).1 ≠ ResolveResult.serverError :=
  (c6_error_degradation envCacheErr stEmpty tEx nEx 5).1 rfl rfl rfl

/-- C1 counterexample: the claim says the audit tag is drawn from
{cache, storage, provider, interpolated}.  On the code, a resolution satisfied by
the provider tier (cache miss, storage miss, provider success) writes exactly one
audit record, but its tag is the literal 'alchemy', which is not in the claimed
set. -/
theorem c1_counterexample :
    (resolvePrice envProv stEmpty tEx nEx 5).1 = ResolveResult.ok 1 alchemyStr none none
    ∧ ((resolvePrice envProv stEmpty tEx nEx 5).2).storage.priceQueries.map
        (fun q => q.source) = [alchemyStr]
    ∧ ¬ (alchemyStr = cacheStr ∨ alchemyStr = storageStr ∨ alchemyStr = providerStr
          ∨ alchemyStr = interpolatedStr) := by
  refine ⟨?_, ?_, ?_⟩
  · simp [resolvePrice, envProv, stEmpty, memEmpty, redisGet, getHistoricalPrice,
      mapGet, createHistoricalPrice, createPriceQuery, tpEx]
  · simp [resolvePrice, envProv, stEmpty, memEmpty, redisGet, getHistoricalPrice,
      mapGet, createHistoricalPrice, createPriceQuery, tpEx]
  · simp [alchemyStr, cacheStr, storageStr, providerStr, interpolatedStr]

/-- C1 (amended): every `ResolvePrice` call that returns a price appends exactly
one PriceQuery audit record — for the requested identity key, carrying the
returned price and the tag of the tier that satisfied the call — and that tag is
drawn from {cache, storage, alchemy, interpolated} ('alchemy' being the tag the
code writes for the provider tier); a call that returns NotFound appends no audit
record. -/
theorem c1_audit_per_resolution (env : ResolveEnv) (st : SysState)
    (token network : String) (timestamp : ℤ) :
    (∀ (p : ℚ) (src : String) (mc vol : Option ℚ),
       (resolvePrice env st token network timestamp).1 = ResolveResult.ok p src mc vol →
       ((resolvePrice env st token network timestamp).2).storage.priceQueries
         = st.storage.priceQueries
           ++ [{ id := st.storage.currentQueryId, tokenAddress := token
                 network := network, timestamp := timestamp
                 price := some p, source := src }]
       ∧ (src = cacheStr ∨ src = storageStr ∨ src = alchemyStr ∨ src = interpolatedStr))
    ∧ ((resolvePrice env st token network timestamp).1 = ResolveResult.notFound →
       ((resolvePrice env st token network timestamp).2).storage.priceQueries
         = st.storage.priceQueries) := by
  constructor
  · intro p src mc vol h
    revert h
    unfold resolvePrice
    (repeat' split) <;> intro h <;>
      simp_all [createPriceQuery, createHistoricalPrice]
  · intro h
    revert h
    unfold resolvePrice
    (repeat' split) <;> intro h <;> simp_all

/-- C1 witness: the exactly-one-audit part of `c1_audit_per_resolution` applied at
the provider-tier resolution over empty backends, the ok-result hypothesis
discharged by evaluation. -/
theorem c1_witness :
    ((resolvePrice envProv stEmpty tEx nEx 5).2).storage.priceQueries
      = stEmpty.storage.priceQueries
        ++ [{ id := stEmpty.storage.currentQueryId, tokenAddress := tEx
              network := nEx, timestamp := 5
              price := some 1, source := alchemyStr }]
    ∧ (alchemyStr = cacheStr ∨ alchemyStr = storageStr ∨ alchemyStr = alchemyStr
        ∨ alchemyStr = interpolatedStr) :=
  (c1_audit_per_resolution envProv stEmpty tEx nEx 5).1 1 alchemyStr none none
    (by simp [resolvePrice, envProv, stEmpty, memEmpty, redisGet, getHistoricalPrice,
      mapGet, createHistoricalPrice, createPriceQuery, tpEx])
